import Mathlib

/-!
Shallow embedding of `apps/web/server.js`, the prefix-based reverse-proxy
gateway of the clothing-site repository, together with theorems settling the
specification claims about its routing, path rewriting, header handling and
error reporting.

JS strings are modelled through their character sequences (`String.data`);
the JS string methods used by the source (`startsWith`, `slice`,
`toLowerCase`, `includes`, the `||` default idiom) are embedded as the
`js*` functions below.  A JS plain object used as a header map is modelled
as an association list with unique keys, where property assignment either
updates the existing key in place or appends a new binding, exactly as JS
property assignment behaves with respect to lookup.
-/

namespace ClothingSite

/-- JS `s.startsWith(p)`: the characters of `p` are an initial segment of
the characters of `s`. -/
def jsStartsWith (s p : String) : Bool :=
  p.data.isPrefixOf s.data

/-- JS `s.slice(n)`: drop the first `n` characters. -/
def jsSlice (s : String) (n : Nat) : String :=
  ⟨s.data.drop n⟩

/-- JS `s.length`. -/
def jsLength (s : String) : Nat :=
  s.data.length

/-- JS `s || d` for strings: the empty string is falsy. -/
def jsOrStr (s d : String) : String :=
  if s = "" then d else s

/-- JS `x || d` where `x` is a possibly-absent string property
(`undefined` and `""` are both falsy). -/
def jsOrOpt (v : Option String) (d : String) : String :=
  match v with
  | none => d
  | some s => if s = "" then d else s

/-- JS `s.toLowerCase()` (ASCII case folding, which is all the source
relies on). -/
def jsToLowerCase (s : String) : String :=
  ⟨s.data.map Char.toLower⟩

/-- Contiguous-sublist test on character lists. -/
def charsInfix (needle : List Char) : List Char → Bool
  | [] => needle.isEmpty
  | c :: t => needle.isPrefixOf (c :: t) || charsInfix needle t

/-- JS `s.includes(sub)`: substring test. -/
def jsIncludes (s sub : String) : Bool :=
  charsInfix sub.data s.data

/-- A header map: association list with unique keys (Node lower-cases
incoming header names; the source only ever reads keys it also writes in
the same case). -/
abbrev Headers := List (String × String)

/-- Property read `headers[k]`: `none` models JS `undefined`. -/
def getHeader : Headers → String → Option String
  | [], _ => none
  | (k', v) :: rest, k => if k' = k then some v else getHeader rest k

/-- Property assignment `headers[k] = v`: update in place if the key is
present, append otherwise. -/
def setHeader : Headers → String → String → Headers
  | [], k, v => [(k, v)]
  | (k', v') :: rest, k, v =>
      if k' = k then (k', v) :: rest else (k', v') :: setHeader rest k v

/-- The inbound request as seen by the handler: `req.url`, `req.method`,
`req.headers`, and the request body stream (abstracted to the byte string
it carries). -/
structure InReq where
  url : String
  method : String
  headers : Headers
  body : String

/-- The `options` object handed to `http.request`, plus the piped body. -/
structure OutReq where
  hostname : String
  port : Nat
  path : String
  method : String
  headers : Headers
  body : String

/-- An upstream response (`pRes`): its status code (0 models a falsy
`statusCode`), headers and body stream. -/
structure UpResponse where
  statusCode : Nat
  headers : Headers
  body : String

/-- Outcome of the outbound request: either the upstream responded, or the
outbound request emitted a transport error carrying a message (the
timeout handler feeds `timeoutErrorMsg` into this error path). -/
inductive UpOutcome where
  | success (r : UpResponse)
  | failure (errMessage : String)

/-- What the gateway writes back to the original caller. -/
structure GwResponse where
  status : Nat
  headers : Headers
  body : String
deriving DecidableEq

/--
`server.js` lines 31-34:
```
const path = origUrl.startsWith(stripPrefix)
  ? origUrl.slice(stripPrefix.length) || "/"
  : origUrl;
```
-/
def rewritePath (origUrl pfx : String) : String :=
  if jsStartsWith origUrl pfx then
    jsOrStr (jsSlice origUrl (jsLength pfx)) "/"
  else origUrl

/--
`server.js` lines 36-40: copy of `req.headers` with
`headers["x-forwarded-host"] = headers["host"] || ""` and
`headers["x-forwarded-proto"] = headers["x-forwarded-proto"] || "http"`.
-/
def proxyHeaders (hs : Headers) : Headers :=
  let h1 := setHeader hs "x-forwarded-host" (jsOrOpt (getHeader hs "host") "")
  setHeader h1 "x-forwarded-proto" (jsOrOpt (getHeader h1 "x-forwarded-proto") "http")

/--
`server.js` lines 29-48: the `options` object built by `proxy` (with
`origUrl = req.url || "/"`), together with the request body that is piped
through unmodified (`req.pipe(pReq)`).
-/
def proxyOutbound (req : InReq) (targetHost : String) (targetPort : Nat)
    (pfx : String) : OutReq :=
  let origUrl := jsOrStr req.url "/"
  { hostname := targetHost
    port := targetPort
    path := rewritePath origUrl pfx
    method := req.method
    headers := proxyHeaders req.headers
    body := req.body }

/-- `server.js` line 56: `pReq.setTimeout(30000, ...)`. -/
def upstreamTimeoutMs : Nat := 30000

/-- `server.js` line 57: `pReq.destroy(new Error("Upstream timeout"))`. -/
def timeoutErrorMsg : String := "Upstream timeout"

/--
`server.js` lines 50-53: on upstream response,
`res.writeHead(pRes.statusCode || 502, pRes.headers)` and
`pRes.pipe(res)`.
-/
def proxySuccess (r : UpResponse) : GwResponse :=
  { status := if r.statusCode = 0 then 502 else r.statusCode
    headers := r.headers
    body := r.body }

/--
`server.js` lines 59-66: the `error` handler of the outbound request.
```
const msg = err && err.message ? err.message : "proxy error";
const isTimeout = String(msg).toLowerCase().includes("timeout");
res.writeHead(isTimeout ? 504 : 502, { "content-type": "text/plain; charset=utf-8" });
res.end(`${isTimeout ? "Gateway timeout" : "Bad gateway"}: ${msg}`);
```
-/
def proxyFailure (errMessage : String) : GwResponse :=
  let msg := jsOrStr errMessage "proxy error"
  let isTimeout := jsIncludes (jsToLowerCase msg) "timeout"
  { status := if isTimeout then 504 else 502
    headers := [("content-type", "text/plain; charset=utf-8")]
    body := (if isTimeout then "Gateway timeout" else "Bad gateway") ++ ": " ++ msg }

/-- The response `proxy` delivers to the caller, as a function of the
outcome of the outbound request. -/
def proxyRespond : UpOutcome → GwResponse
  | .success r => proxySuccess r
  | .failure m => proxyFailure m

/-- The routing decision taken by the request handler for a given URL. -/
inductive Decision where
  | health
  | forward (host : String) (port : Nat) (pfx : String)
  | redirect (location : String)
  | staticPage
  | notFound
deriving DecidableEq

/--
`server.js` lines 72-103: the dispatch chain of the request handler,
applied to `url = req.url || "/"`.
-/
def dispatch (url : String) : Decision :=
  if url = "/health" then .health
  else if jsStartsWith url "/api/" then .forward "api" 8001 "/api"
  else if jsStartsWith url "/ai/" then .forward "ai" 8002 "/ai"
  else if jsStartsWith url "/media/" then .forward "minio" 9000 "/media"
  else if url = "/shop" then .redirect "/shop/"
  else if url = "/" ∨ jsStartsWith url "/shop/" then .staticPage
  else .notFound

/-- The dispatch chain viewed as an explicit ordered rule list (the
spec's "(predicate, handler) pairs evaluated in order"). -/
def ruleList : List ((String → Bool) × Decision) :=
  [ (fun u => u == "/health", .health)
  , (fun u => jsStartsWith u "/api/", .forward "api" 8001 "/api")
  , (fun u => jsStartsWith u "/ai/", .forward "ai" 8002 "/ai")
  , (fun u => jsStartsWith u "/media/", .forward "minio" 9000 "/media")
  , (fun u => u == "/shop", .redirect "/shop/")
  , (fun u => u == "/" || jsStartsWith u "/shop/", .staticPage) ]

/-- First-match evaluation of an ordered rule list, falling through to
the not-found decision. -/
def firstMatch : List ((String → Bool) × Decision) → String → Decision
  | [], _ => .notFound
  | (p, d) :: rest, u => if p u then d else firstMatch rest u

/-- `JSON.stringify({ status: "ok" })` — the health payload. -/
def healthBody : String := "\x7b\"status\":\"ok\"\x7d"

/-- `JSON.stringify({ detail: "Not Found" })` — the 404 payload. -/
def notFoundBody : String := "\x7b\"detail\":\"Not Found\"\x7d"

/-- The `INDEX_HTML` constant of `server.js` (braces written as escapes). -/
def INDEX_HTML : String :=
  "<!doctype html>\n<html lang=\"ru\">\n<head><meta charset=\"utf-8\" /><meta name=\"viewport\" content=\"width=device-width, initial-scale=1\" />\n<title>Clothing — skeleton</title>\n<style>\n  body\x7bfont-family:system-ui,-apple-system,Segoe UI,Roboto,Arial,sans-serif;margin:48px\x7d\n  h1\x7bfont-size:56px;margin:0 0 24px\x7d\n  code\x7bbackground:#f2f2f2;padding:2px 6px;border-radius:6px\x7d\n</style>\n</head>\n<body>\n  <h1>Магазин одежды — skeleton</h1>\n  <h2>Маршруты:</h2>\n  <ul>\n    <li><code>/</code> — магазин (web)</li>\n    <li><code>/shop/</code> — магазин (alias)</li>\n    <li><code>/api/health</code> — api</li>\n    <li><code>/ai/health</code> — ai</li>\n    <li><code>/media/&lt;bucket&gt;/&lt;object&gt;</code> — файлы</li>\n    <li><code>/health</code> — health web</li>\n  </ul>\n</body>\n</html>"

/--
The full request handler (`server.js` lines 72-104): the response the
original caller receives, given the inbound request and — when the
request is forwarded — the outcome of the outbound request.
-/
def gatewayResponse (req : InReq) (up : UpOutcome) : GwResponse :=
  match dispatch (jsOrStr req.url "/") with
  | .health =>
      { status := 200
        headers := [("content-type", "application/json; charset=utf-8")]
        body := healthBody }
  | .forward _ _ _ => proxyRespond up
  | .redirect loc =>
      { status := 301, headers := [("Location", loc)], body := "" }
  | .staticPage =>
      { status := 200
        headers := [("content-type", "text/html; charset=utf-8")]
        body := INDEX_HTML }
  | .notFound =>
      { status := 404
        headers := [("content-type", "application/json; charset=utf-8")]
        body := notFoundBody }

/-- The upstream (host, port) a URL is forwarded to, `none` when the
request is answered locally. -/
def upstreamTarget (url : String) : Option (String × Nat) :=
  match dispatch url with
  | .forward h p _ => some (h, p)
  | _ => none

/-! Helper lemmas about the JS string model and the header map. -/

theorem jsStartsWith_iff {s p : String} :
    jsStartsWith s p = true ↔ ∃ t, p.data ++ t = s.data := by
  simp [jsStartsWith, List.isPrefixOf_iff_prefix, List.IsPrefix]

theorem ne_of_starts_not_starts {u s p : String}
    (h : jsStartsWith u p = true) (hs : jsStartsWith s p = false) : u ≠ s := by
  intro heq
  subst heq
  rw [h] at hs
  cases hs

theorem starts_false_of_conflict {u a b : String}
    (h : jsStartsWith u a = true)
    (hab : jsStartsWith a b = false) (hba : jsStartsWith b a = false) :
    jsStartsWith u b = false := by
  rw [← Bool.not_eq_true]
  intro hb
  obtain ⟨t, ht⟩ := jsStartsWith_iff.1 h
  obtain ⟨r, hr⟩ := jsStartsWith_iff.1 hb
  rcases List.prefix_or_prefix_of_prefix (⟨t, ht⟩ : a.data <+: u.data)
      (⟨r, hr⟩ : b.data <+: u.data) with hc | hc
  · obtain ⟨w, hw⟩ := hc
    have : jsStartsWith b a = true := jsStartsWith_iff.2 ⟨w, hw⟩
    rw [this] at hba; cases hba
  · obtain ⟨w, hw⟩ := hc
    have : jsStartsWith a b = true := jsStartsWith_iff.2 ⟨w, hw⟩
    rw [this] at hab; cases hab

theorem append_slice_of_starts {u p : String} (h : jsStartsWith u p = true) :
    p ++ jsSlice u (jsLength p) = u := by
  obtain ⟨t, ht⟩ := jsStartsWith_iff.1 h
  apply String.ext
  rw [String.data_append]
  show p.data ++ (u.data.drop p.data.length) = u.data
  rw [← ht, List.drop_left]

theorem starts_slash_slice {u p : String}
    (h : jsStartsWith u (p ++ "/") = true) :
    jsStartsWith u p = true ∧
    jsStartsWith (jsSlice u (jsLength p)) "/" = true ∧
    jsSlice u (jsLength p) ≠ "" := by
  obtain ⟨t, ht⟩ := jsStartsWith_iff.1 h
  rw [String.data_append] at ht
  have hu : u.data = p.data ++ ('/' :: t) := by
    rw [← ht]
    simp [String]
  have h1 : jsStartsWith u p = true :=
    jsStartsWith_iff.2 ⟨'/' :: t, hu.symm⟩
  have hdrop : (jsSlice u (jsLength p)).data = '/' :: t := by
    show u.data.drop p.data.length = '/' :: t
    rw [hu, List.drop_left]
  refine ⟨h1, ?_, ?_⟩
  · exact jsStartsWith_iff.2 ⟨t, by rw [hdrop]; rfl⟩
  · intro hemp
    rw [hemp] at hdrop
    cases hdrop

theorem rewritePath_of_starts {u p : String} (h : jsStartsWith u p = true)
    (hne : jsSlice u (jsLength p) ≠ "") :
    rewritePath u p = jsSlice u (jsLength p) := by
  simp [rewritePath, h, jsOrStr, hne]

theorem rewritePath_of_not_starts {u p : String}
    (h : jsStartsWith u p = false) : rewritePath u p = u := by
  simp [rewritePath, h]

theorem getHeader_setHeader_self (hs : Headers) (k v : String) :
    getHeader (setHeader hs k v) k = some v := by
  induction hs with
  | nil => simp [setHeader, getHeader]
  | cons p rest ih =>
      obtain ⟨k', v'⟩ := p
      by_cases h : k' = k <;> simp [setHeader, getHeader, h, ih]

theorem getHeader_setHeader_ne (hs : Headers) {k q : String} (v : String)
    (h : q ≠ k) : getHeader (setHeader hs k v) q = getHeader hs q := by
  have hkq : ¬ (k = q) := fun hh => h hh.symm
  induction hs with
  | nil => simp [setHeader, getHeader, hkq]
  | cons p rest ih =>
      obtain ⟨k', v'⟩ := p
      by_cases hk : k' = k
      · subst hk
        simp [setHeader, getHeader, hkq]
      · simp [setHeader, getHeader, hk, ih]

theorem jsOrStr_of_ne {s d : String} (h : s ≠ "") : jsOrStr s d = s := by
  simp [jsOrStr, h]

example : rewritePath "/api/health" "/api" = "/health" := by decide
example : rewritePath "/api" "/api" = "/" := by decide
example : rewritePath "/x" "/api" = "/x" := by decide
example : dispatch "/health" = .health := by decide
example : dispatch "/health?x=1" = .notFound := by decide
example : dispatch "/shop" = .redirect "/shop/" := by decide
example : dispatch "/shop/x" = .staticPage := by decide
example : jsIncludes (jsToLowerCase "Upstream timeout") "timeout" = true := by decide

/-- C1: for a URL beginning with a configured prefix the forwarded path is
the URL with the rule's strip string removed from the front (removal is
genuine: putting the strip string back in front of the forwarded path
recovers the URL); when the remainder after stripping is empty the path
defaults to `/`; and when the URL does not start with the strip string the
path is forwarded unchanged. -/
theorem proxy_path_rewrite (url sp : String)
    (_hsp : sp = "/api" ∨ sp = "/ai" ∨ sp = "/media") :
    (jsStartsWith url (sp ++ "/") = true →
        sp ++ rewritePath url sp = url) ∧
    (jsStartsWith url sp = true →
        rewritePath url sp = jsOrStr (jsSlice url (jsLength sp)) "/" ∧
        (jsSlice url (jsLength sp) = "" → rewritePath url sp = "/")) ∧
    (jsStartsWith url sp = false → rewritePath url sp = url) := by
  refine ⟨?_, ?_, fun h => rewritePath_of_not_starts h⟩
  · intro h
    obtain ⟨hsp', _, hne⟩ := starts_slash_slice h
    rw [rewritePath_of_starts hsp' hne]
    exact append_slice_of_starts hsp'
  · intro h
    refine ⟨by simp [rewritePath, h], fun hemp => ?_⟩
    simp [rewritePath, h, hemp, jsOrStr]

/-- Witness for C1 at the concrete URL `/api/health` and rule `/api`. -/
theorem proxy_path_rewrite_witness :
    ("/api" = "/api" ∨ "/api" = "/ai" ∨ "/api" = "/media") ∧
    ((jsStartsWith "/api/health" ("/api" ++ "/") = true →
        "/api" ++ rewritePath "/api/health" "/api" = "/api/health") ∧
     (jsStartsWith "/api/health" "/api" = true →
        rewritePath "/api/health" "/api" =
          jsOrStr (jsSlice "/api/health" (jsLength "/api")) "/" ∧
        (jsSlice "/api/health" (jsLength "/api") = "" →
          rewritePath "/api/health" "/api" = "/")) ∧
     (jsStartsWith "/api/health" "/api" = false →
        rewritePath "/api/health" "/api" = "/api/health")) :=
  ⟨Or.inl rfl, proxy_path_rewrite "/api/health" "/api" (Or.inl rfl)⟩

/-- C2: when the upstream responds (a real HTTP response, status code
nonzero), the status, headers and body the gateway returns to the caller
are exactly the upstream's. -/
theorem upstream_response_passthrough (r : UpResponse) (h : r.statusCode ≠ 0) :
    proxyRespond (.success r) =
      { status := r.statusCode, headers := r.headers, body := r.body } := by
  simp [proxyRespond, proxySuccess, h]

/-- Witness for C2 at a concrete upstream response. -/
theorem upstream_response_passthrough_witness :
    (⟨200, [("content-type", "application/json")], "\x7b\x7d"⟩ :
      UpResponse).statusCode ≠ 0 ∧
    proxyRespond
        (.success ⟨200, [("content-type", "application/json")], "\x7b\x7d"⟩) =
      { status := 200
        headers := [("content-type", "application/json")]
        body := "\x7b\x7d" } :=
  ⟨by decide,
   upstream_response_passthrough
     ⟨200, [("content-type", "application/json")], "\x7b\x7d"⟩ (by decide)⟩

/-- C3: a transport failure is answered by the gateway itself: the failure
injected by the fixed 30000 ms upstream timeout yields 504 with the
one-line plain-text body `Gateway timeout: Upstream timeout`, and a
transport failure whose error text does not mention a timeout (connection
refused, reset, DNS failure) yields 502 with the one-line plain-text body
`Bad gateway: ` followed by the underlying error text. -/
theorem transport_failure_responses (msg : String) :
    proxyRespond (.failure timeoutErrorMsg) =
      { status := 504
        headers := [("content-type", "text/plain; charset=utf-8")]
        body := "Gateway timeout: Upstream timeout" } ∧
    upstreamTimeoutMs = 30000 ∧
    (msg ≠ "" → jsIncludes (jsToLowerCase msg) "timeout" = false →
      proxyRespond (.failure msg) =
        { status := 502
          headers := [("content-type", "text/plain; charset=utf-8")]
          body := "Bad gateway: " ++ msg }) := by
  refine ⟨by decide, rfl, ?_⟩
  intro hne hti
  simp [proxyRespond, proxyFailure, jsOrStr, hne, hti]

/-- Witness for C3 at a concrete connection-refused error. -/
theorem transport_failure_responses_witness :
    ("connect ECONNREFUSED 172.18.0.2:8001" ≠ "" ∧
     jsIncludes (jsToLowerCase "connect ECONNREFUSED 172.18.0.2:8001")
       "timeout" = false) ∧
    proxyRespond (.failure "connect ECONNREFUSED 172.18.0.2:8001") =
      { status := 502
        headers := [("content-type", "text/plain; charset=utf-8")]
        body := "Bad gateway: connect ECONNREFUSED 172.18.0.2:8001" } :=
  ⟨⟨by decide, by decide⟩,
   (transport_failure_responses "connect ECONNREFUSED 172.18.0.2:8001").2.2
     (by decide) (by decide)⟩

/-- C4 counterexample: it is not true that every original request header
reaches the upstream unchanged — a pre-existing `x-forwarded-host` header
is overwritten with the inbound `host` value. -/
theorem forwarded_headers_counterexample :
    ¬ (∀ (hs : Headers) (k v : String),
        getHeader hs k = some v → getHeader (proxyHeaders hs) k = some v) := by
  intro hclaim
  have h := hclaim [("host", "gw.internal"), ("x-forwarded-host", "public.example")]
      "x-forwarded-host" "public.example" (by decide)
  exact absurd h (by decide)

/-- C4 amended: the outbound request keeps the inbound method and body;
every header other than `x-forwarded-host` and `x-forwarded-proto` —
in particular `host` — is carried unchanged; `x-forwarded-host` is set
(overwriting any inbound value) to the inbound `host` header, or `""`
when that is absent or empty; `x-forwarded-proto` keeps its inbound value
and defaults to `http` when absent or empty. -/
theorem forwarded_request_shape (req : InReq) (host : String) (port : Nat)
    (sp k : String) :
    (proxyOutbound req host port sp).method = req.method ∧
    (proxyOutbound req host port sp).body = req.body ∧
    getHeader (proxyOutbound req host port sp).headers "host"
      = getHeader req.headers "host" ∧
    getHeader (proxyOutbound req host port sp).headers k =
      (if k = "x-forwarded-host" then
         some (jsOrOpt (getHeader req.headers "host") "")
       else if k = "x-forwarded-proto" then
         some (jsOrOpt (getHeader req.headers "x-forwarded-proto") "http")
       else getHeader req.headers k) := by
  refine ⟨rfl, rfl, ?_, ?_⟩
  · show getHeader (proxyHeaders req.headers) "host" = _
    rw [proxyHeaders]
    rw [getHeader_setHeader_ne _ _ (by decide)]
    rw [getHeader_setHeader_ne _ _ (by decide)]
  · show getHeader (proxyHeaders req.headers) k = _
    rw [proxyHeaders]
    by_cases h1 : k = "x-forwarded-host"
    · subst h1
      rw [getHeader_setHeader_ne _ _ (by decide), getHeader_setHeader_self]
      simp
    · by_cases h2 : k = "x-forwarded-proto"
      · subst h2
        rw [getHeader_setHeader_self,
          getHeader_setHeader_ne _ _ (by decide)]
        simp
      · rw [getHeader_setHeader_ne _ _ h2, getHeader_setHeader_ne _ _ h1]
        simp [h1, h2]

/-- C5: the dispatch chain is first-match-wins over the ordered rule list
(health exact match first, then the three forwarding prefixes in order
`/api/`, `/ai/`, `/media/`, then the local page routes, then the 404
fallthrough), every URL receives exactly one decision, and each prefix
maps to its configured upstream host, port and strip string. -/
theorem dispatch_first_match (u : String) :
    dispatch u = firstMatch ruleList u ∧
    (∃! d : Decision, dispatch u = d) ∧
    dispatch "/health" = Decision.health ∧
    (jsStartsWith u "/api/" = true →
      dispatch u = Decision.forward "api" 8001 "/api") ∧
    (jsStartsWith u "/ai/" = true →
      dispatch u = Decision.forward "ai" 8002 "/ai") ∧
    (jsStartsWith u "/media/" = true →
      dispatch u = Decision.forward "minio" 9000 "/media") ∧
    (u ≠ "/health" → jsStartsWith u "/api/" = false →
      jsStartsWith u "/ai/" = false → jsStartsWith u "/media/" = false →
      u ≠ "/shop" → u ≠ "/" → jsStartsWith u "/shop/" = false →
      dispatch u = Decision.notFound) := by
  refine ⟨?_, ⟨dispatch u, rfl, fun d hd => hd.symm⟩, by decide, ?_, ?_, ?_, ?_⟩
  · simp only [dispatch, firstMatch, ruleList, beq_iff_eq, Bool.or_eq_true]
  · intro h
    have hne : u ≠ "/health" := ne_of_starts_not_starts h (by decide)
    simp [dispatch, hne, h]
  · intro h
    have hne : u ≠ "/health" := ne_of_starts_not_starts h (by decide)
    have hapi : jsStartsWith u "/api/" = false :=
      starts_false_of_conflict h (by decide) (by decide)
    simp [dispatch, hne, hapi, h]
  · intro h
    have hne : u ≠ "/health" := ne_of_starts_not_starts h (by decide)
    have hapi : jsStartsWith u "/api/" = false :=
      starts_false_of_conflict h (by decide) (by decide)
    have hai : jsStartsWith u "/ai/" = false :=
      starts_false_of_conflict h (by decide) (by decide)
    simp [dispatch, hne, hapi, hai, h]
  · intro h1 h2 h3 h4 h5 h6 h7
    simp [dispatch, h1, h2, h3, h4, h5, h6, h7]

/-- Witness for C5 at the concrete URL `/api/v1/users`. -/
theorem dispatch_first_match_witness :
    jsStartsWith "/api/v1/users" "/api/" = true ∧
    dispatch "/api/v1/users" = Decision.forward "api" 8001 "/api" :=
  ⟨by decide, (dispatch_first_match "/api/v1/users").2.2.2.1 (by decide)⟩

/-- C6: a request whose URL is exactly `/health` is answered with status
200 and the fixed JSON payload, whatever the method, headers, body or the
state of any upstream, and no upstream target is contacted. -/
theorem health_route_local (m : String) (hs : Headers) (b : String)
    (up : UpOutcome) :
    gatewayResponse ⟨"/health", m, hs, b⟩ up =
      { status := 200
        headers := [("content-type", "application/json; charset=utf-8")]
        body := healthBody } ∧
    healthBody = "\x7b\"status\":\"ok\"\x7d" ∧
    upstreamTarget "/health" = none :=
  ⟨rfl, rfl, rfl⟩

/-- C7 counterexample: the claim's side conditions ("matches no prefix
rule and is not `/`, `/shop`, `/shop/` or `/health`") are satisfied by
`/shop/catalog`, yet that URL is answered 200 (static page), not 404. -/
theorem unmatched_404_counterexample :
    ¬ (∀ (u : String) (up : UpOutcome),
        jsStartsWith u "/api/" = false → jsStartsWith u "/ai/" = false →
        jsStartsWith u "/media/" = false →
        u ≠ "/" → u ≠ "/shop" → u ≠ "/shop/" → u ≠ "/health" →
        (gatewayResponse ⟨u, "GET", [], ""⟩ up).status = 404) := by
  intro hclaim
  have h := hclaim "/shop/catalog" (.failure "e") (by decide) (by decide)
      (by decide) (by decide) (by decide) (by decide) (by decide)
  exact absurd h (by decide)

/-- C7 amended: a request with a non-empty URL that matches none of the
three forwarding prefixes, is not exactly `/`, `/shop` or `/health`, and
does not begin with `/shop/`, is answered 404 with the JSON body
`\x7b"detail":"Not Found"\x7d`, which contains a `detail` field. -/
theorem unmatched_route_404 (u m b : String) (hs : Headers) (up : UpOutcome)
    (h0 : u ≠ "") (h1 : jsStartsWith u "/api/" = false)
    (h2 : jsStartsWith u "/ai/" = false)
    (h3 : jsStartsWith u "/media/" = false)
    (h4 : u ≠ "/") (h5 : u ≠ "/shop")
    (h6 : jsStartsWith u "/shop/" = false) (h7 : u ≠ "/health") :
    gatewayResponse ⟨u, m, hs, b⟩ up =
      { status := 404
        headers := [("content-type", "application/json; charset=utf-8")]
        body := notFoundBody } ∧
    jsIncludes notFoundBody "\"detail\"" = true := by
  have hd : dispatch u = Decision.notFound := by
    simp [dispatch, h1, h2, h3, h4, h5, h6, h7]
  exact ⟨by simp [gatewayResponse, jsOrStr_of_ne h0, hd], by decide⟩

/-- Witness for C7 (amended) at the concrete URL `/nope`. -/
theorem unmatched_route_404_witness :
    (("/nope" : String) ≠ "" ∧ jsStartsWith "/nope" "/api/" = false ∧
     jsStartsWith "/nope" "/ai/" = false ∧
     jsStartsWith "/nope" "/media/" = false ∧
     ("/nope" : String) ≠ "/" ∧ ("/nope" : String) ≠ "/shop" ∧
     jsStartsWith "/nope" "/shop/" = false ∧
     ("/nope" : String) ≠ "/health") ∧
    (gatewayResponse ⟨"/nope", "GET", [], ""⟩ (.failure "e") =
      { status := 404
        headers := [("content-type", "application/json; charset=utf-8")]
        body := notFoundBody } ∧
     jsIncludes notFoundBody "\"detail\"" = true) :=
  ⟨⟨by decide, by decide, by decide, by decide, by decide, by decide,
    by decide, by decide⟩,
   unmatched_route_404 "/nope" "GET" "" [] (.failure "e") (by decide)
     (by decide) (by decide) (by decide) (by decide) (by decide)
     (by decide) (by decide)⟩

/-- C8 counterexample: `/shop` is one of the claimed static-page routes,
but the code answers it with a 301 redirect to `/shop/`, not with the
200 static document. -/
theorem static_claim_counterexample :
    ¬ (∀ (u : String) (up : UpOutcome),
        (u = "/" ∨ u = "/shop" ∨ jsStartsWith u "/shop/" = true) →
        (gatewayResponse ⟨u, "GET", [], ""⟩ up).status = 200) := by
  intro hclaim
  have h := hclaim "/shop" (.failure "e") (Or.inr (Or.inl rfl))
  exact absurd h (by decide)

/-- C8 amended: a URL that is exactly `/` or begins with `/shop/` is
answered locally with status 200 and the static `INDEX_HTML` document and
no upstream is contacted, while `/shop` is answered locally with a 301
redirect to `/shop/`, also with no upstream contact. -/
theorem static_routes_local (u m b : String) (hs : Headers) (up : UpOutcome)
    (h : u = "/" ∨ jsStartsWith u "/shop/" = true) :
    gatewayResponse ⟨u, m, hs, b⟩ up =
      { status := 200
        headers := [("content-type", "text/html; charset=utf-8")]
        body := INDEX_HTML } ∧
    upstreamTarget u = none ∧
    gatewayResponse ⟨"/shop", m, hs, b⟩ up =
      { status := 301, headers := [("Location", "/shop/")], body := "" } ∧
    upstreamTarget "/shop" = none := by
  have h0 : u ≠ "" := by
    cases h with
    | inl h => subst h; decide
    | inr h => exact ne_of_starts_not_starts h (by decide)
  have hd : dispatch u = Decision.staticPage := by
    cases h with
    | inl h => subst h; decide
    | inr h =>
        have hne : u ≠ "/health" := ne_of_starts_not_starts h (by decide)
        have hapi : jsStartsWith u "/api/" = false :=
          starts_false_of_conflict h (by decide) (by decide)
        have hai : jsStartsWith u "/ai/" = false :=
          starts_false_of_conflict h (by decide) (by decide)
        have hmedia : jsStartsWith u "/media/" = false :=
          starts_false_of_conflict h (by decide) (by decide)
        have hshop : u ≠ "/shop" := ne_of_starts_not_starts h (by decide)
        simp [dispatch, hne, hapi, hai, hmedia, hshop, h]
  exact ⟨by simp [gatewayResponse, jsOrStr_of_ne h0, hd],
    by simp [upstreamTarget, hd], rfl, rfl⟩

/-- Witness for C8 (amended) at the concrete URL `/shop/catalog`. -/
theorem static_routes_local_witness :
    ("/shop/catalog" = "/" ∨ jsStartsWith "/shop/catalog" "/shop/" = true) ∧
    (gatewayResponse ⟨"/shop/catalog", "GET", [], ""⟩ (.failure "e") =
      { status := 200
        headers := [("content-type", "text/html; charset=utf-8")]
        body := INDEX_HTML } ∧
     upstreamTarget "/shop/catalog" = none ∧
     gatewayResponse ⟨"/shop", "GET", [], ""⟩ (.failure "e") =
      { status := 301, headers := [("Location", "/shop/")], body := "" } ∧
     upstreamTarget "/shop" = none) :=
  ⟨Or.inr (by decide),
   static_routes_local "/shop/catalog" "GET" "" [] (.failure "e")
     (Or.inr (by decide))⟩

/-- C9: whenever the dispatcher hands a request to the forwarding
operation, the URL necessarily begins with the rule's strip string
followed by `/`; consequently, inside `proxy` the defensive
unchanged-path branch is not taken, the empty-remainder default to `/`
is not taken, and the rewritten path is the plain remainder, which is
non-empty and begins with `/`. -/
theorem forwarded_prefix_invariant (u m b : String) (hs : Headers)
    (host : String) (port : Nat) (sp : String)
    (hd : dispatch u = Decision.forward host port sp) :
    jsStartsWith u (sp ++ "/") = true ∧
    jsStartsWith u sp = true ∧
    jsSlice u (jsLength sp) ≠ "" ∧
    rewritePath u sp = jsSlice u (jsLength sp) ∧
    jsStartsWith (rewritePath u sp) "/" = true ∧
    (proxyOutbound ⟨u, m, hs, b⟩ host port sp).path = rewritePath u sp := by
  have hfull : jsStartsWith u (sp ++ "/") = true := by
    unfold dispatch at hd
    split_ifs at hd with c1 c2 c3 c4 c5 c6
    · simp only [Decision.forward.injEq] at hd
      obtain ⟨_, _, hsp⟩ := hd
      subst hsp
      rw [show ("/api" ++ "/" : String) = "/api/" by decide]
      exact c2
    · simp only [Decision.forward.injEq] at hd
      obtain ⟨_, _, hsp⟩ := hd
      subst hsp
      rw [show ("/ai" ++ "/" : String) = "/ai/" by decide]
      exact c3
    · simp only [Decision.forward.injEq] at hd
      obtain ⟨_, _, hsp⟩ := hd
      subst hsp
      rw [show ("/media" ++ "/" : String) = "/media/" by decide]
      exact c4
  obtain ⟨hsp', hsl, hne⟩ := starts_slash_slice hfull
  have hrw : rewritePath u sp = jsSlice u (jsLength sp) :=
    rewritePath_of_starts hsp' hne
  have h0 : u ≠ "" := by
    intro heq
    obtain ⟨t, ht⟩ := jsStartsWith_iff.1 hfull
    subst heq
    simp [String.data_append] at ht
  refine ⟨hfull, hsp', hne, hrw, ?_, ?_⟩
  · rw [hrw]; exact hsl
  · simp [proxyOutbound, jsOrStr_of_ne h0]

/-- Witness for C9 at the concrete URL `/api/health`. -/
theorem forwarded_prefix_invariant_witness :
    dispatch "/api/health" = Decision.forward "api" 8001 "/api" ∧
    (jsStartsWith "/api/health" ("/api" ++ "/") = true ∧
     jsStartsWith "/api/health" "/api" = true ∧
     jsSlice "/api/health" (jsLength "/api") ≠ "" ∧
     rewritePath "/api/health" "/api" = jsSlice "/api/health" (jsLength "/api") ∧
     jsStartsWith (rewritePath "/api/health" "/api") "/" = true ∧
     (proxyOutbound ⟨"/api/health", "GET", [], ""⟩ "api" 8001 "/api").path
       = rewritePath "/api/health" "/api") :=
  ⟨by decide,
   forwarded_prefix_invariant "/api/health" "GET" "" [] "api" 8001 "/api"
     (by decide)⟩

/-- C10: matching is done on the full URL including the query string —
`/health?x=1` matches no rule and is answered 404 — while for
prefix-routed requests the query string survives verbatim in the
forwarded path after the prefix is stripped. -/
theorem query_string_matching (rest q sp : String)
    (_hsp : sp = "/api" ∨ sp = "/ai" ∨ sp = "/media") :
    dispatch "/health?x=1" = Decision.notFound ∧
    (∀ (m b : String) (hs : Headers) (up : UpOutcome),
      (gatewayResponse ⟨"/health?x=1", m, hs, b⟩ up).status = 404) ∧
    rewritePath (sp ++ "/" ++ rest ++ "?" ++ q) sp
      = "/" ++ rest ++ "?" ++ q := by
  have hslash : ("/" : String).data = ['/'] := rfl
  have hq : ("?" : String).data = ['?'] := rfl
  have hw : (sp ++ "/" ++ rest ++ "?" ++ q).data
      = sp.data ++ ('/' :: (rest.data ++ '?' :: q.data)) := by
    simp [String.data_append, hslash, hq]
  have hstart : jsStartsWith (sp ++ "/" ++ rest ++ "?" ++ q) sp = true :=
    jsStartsWith_iff.2 ⟨'/' :: (rest.data ++ '?' :: q.data), hw.symm⟩
  have hkey : jsSlice (sp ++ "/" ++ rest ++ "?" ++ q) (jsLength sp)
      = "/" ++ rest ++ "?" ++ q := by
    apply String.ext
    show (sp ++ "/" ++ rest ++ "?" ++ q).data.drop sp.data.length = _
    rw [hw, List.drop_left]
    simp [String.data_append, hslash, hq]
  have hne : jsSlice (sp ++ "/" ++ rest ++ "?" ++ q) (jsLength sp) ≠ "" := by
    rw [hkey]
    intro hh
    have h3 := congrArg String.data hh
    simp [String.data_append, hslash, hq] at h3
  refine ⟨by decide, fun m b hs up => rfl, ?_⟩
  rw [rewritePath_of_starts hstart hne, hkey]

/-- Witness for C10 at the rule `/api` with path remainder `users/1` and
query `size=m`. -/
theorem query_string_matching_witness :
    ("/api" = "/api" ∨ "/api" = "/ai" ∨ "/api" = "/media") ∧
    (dispatch "/health?x=1" = Decision.notFound ∧
     (∀ (m b : String) (hs : Headers) (up : UpOutcome),
       (gatewayResponse ⟨"/health?x=1", m, hs, b⟩ up).status = 404) ∧
     rewritePath ("/api" ++ "/" ++ "users/1" ++ "?" ++ "size=m") "/api"
       = "/" ++ "users/1" ++ "?" ++ "size=m") :=
  ⟨Or.inl rfl, query_string_matching "users/1" "size=m" "/api" (Or.inl rfl)⟩

end ClothingSite
